import Mathlib

/-!
Verification of the retrieval-and-streaming pipeline of a browser-based
knowledge assistant.  The development shallowly embeds the orchestration
code of the application (message sending, streaming accumulation,
cooperative cancellation, error classification, prompt assembly and the
session token budget) as executable Lean definitions and proves the
specified properties about them.

The repository contains several near-duplicate snapshots of the same
orchestrator.  Two of them are embedded here:

* `AppV1.handleSendMessage` — the variant of `src/App.tsx` (first
  snapshot, lines 162-221) that extracts final metadata with
  `processFinalResponse` and writes a `sources` field;
* `AppV2.handleSendMessage` — the variant of `src/App.tsx` (second
  snapshot, lines 569-635) that refuses locally when the knowledge base
  is empty.

The error-classification regexes come from `src/unnamed/part_000`
(lines 280-291 and 899-919), the prompt assembly from
`src/services/geminiService.ts` (third snapshot, lines 156-193) and the
budget arithmetic from `src/components/SettingsPanel.tsx` (lines 36-58).
-/

/-- Message author, from `src/types.ts` (`type Role`). -/
inductive Role where
  | user
  | model
deriving DecidableEq, Repr

/-- A citation source, from `src/types.ts` (`interface Source`). -/
structure Source where
  uri : String
  title : String
deriving DecidableEq, Repr

/-- A chat message, from `src/types.ts` (`interface Message`); the optional
`sources` field is `none` until final metadata is committed. -/
structure Message where
  role : Role
  text : String
  sources : Option (List Source) := none
deriving DecidableEq, Repr

/-- Generation settings, from `src/types.ts` (`interface Settings`).
The JavaScript float `temperature` is embedded as a rational: it is only
ever passed through verbatim, never computed with. -/
structure Settings where
  model : String
  temperature : ℚ
  systemInstruction : String
deriving DecidableEq, Repr

/-- One chunk of a streaming generation response, as consumed by the
`for await` loops of `handleSendMessage`: its `text` delta, the optional
`usageMetadata.totalTokenCount` and any grounding sources carried by the
final chunk. -/
structure StreamChunk where
  text : String
  usageTokenCount : Option ℕ := none
  groundingSources : List Source := []
deriving DecidableEq, Repr

/-- How the provider stream terminates after delivering its listed chunks:
either it ends normally, or the next `await` throws an error whose
`message` is the given string. -/
inductive StreamOutcome where
  | completes
  | fails (message : String)
deriving DecidableEq, Repr

/-- The component state touched by `handleSendMessage` in `src/App.tsx`:
`messages`, `isLoading`, `error`, `totalTokensUsed` and the
`stopStreamingRef` flag. -/
structure AppState where
  messages : List Message
  isLoading : Bool
  error : Option String
  totalTokensUsed : ℕ
  stopStreaming : Bool
deriving DecidableEq, Repr

/-- Result of one `handleSendMessage` invocation: the final component
state together with whether the generation endpoint (`runChatStream`)
was invoked during the turn. -/
structure TurnResult where
  state : AppState
  generationCalled : Bool
deriving DecidableEq, Repr

/-! ### String primitives

The JavaScript string operations used by the source (`trim`,
`includes`, `toLowerCase`, regex tests) are embedded as executable
functions on character lists so that concrete runs reduce inside the
kernel. -/

/-- JavaScript `String.prototype.trim`: strip leading and trailing
whitespace. -/
def jsTrim (s : String) : String :=
  String.mk (((s.data.dropWhile Char.isWhitespace).reverse.dropWhile
    Char.isWhitespace).reverse)

/-- Search for the pattern `p` in `s`; on the first occurrence return the
suffix of `s` that follows it. -/
def dropToMatch (p : List Char) : List Char → Option (List Char)
  | [] => if p.isEmpty then some [] else none
  | c :: rest =>
      if p.isPrefixOf (c :: rest) then some ((c :: rest).drop p.length)
      else dropToMatch p rest

/-- JavaScript `String.prototype.includes`: substring containment. -/
def jsIncludes (needle s : String) : Bool :=
  (dropToMatch needle.data s.data).isSome

/-- Successive-occurrence test: the patterns all occur in `s`, in order,
each strictly after the end of the previous one.  This decides whether a
regular expression of the form `p1.*?p2.*?…` matches within one line. -/
def inOrder : List (List Char) → List Char → Bool
  | [], _ => true
  | p :: ps, s =>
      match dropToMatch p s with
      | some rest => inOrder ps rest
      | none => false

/-- Split a character list at newline characters (a JavaScript `.` in a
regex without the `s` flag never matches a newline, so each alternative
of the source's regexes must match inside a single line). -/
def splitLinesAux : List Char → List Char → List (List Char)
  | [], acc => [acc.reverse]
  | c :: rest, acc =>
      if c = '\n' then acc.reverse :: splitLinesAux rest []
      else splitLinesAux rest (c :: acc)

/-- Case-insensitive test of one regex alternative `p1.*?p2.*?…` against
a raw message: some line of the lower-cased message contains the
lower-case patterns in order. -/
def regexAlt (ps : List String) (m : String) : Bool :=
  (splitLinesAux (m.data.map Char.toLower) []).any
    (fun line => inOrder (ps.map String.data) line)

/-! ### Error classification (`src/unnamed/part_000`)

The catch block at lines 276-300 tests the raw error text against
`/API.*?key.*?not.*?valid|invalid.*?API.*?key|API.*?key.*?invalid|permission.*?denied|API_KEY_INVALID/i`
and then `/billing/i`, in that order.  The variant at lines 899-919 uses
the same invalid-key regex without the `API_KEY_INVALID` alternative and
clears the cached API key (forcing re-entry) exactly when it matches. -/

/-- `isInvalidApiKeyError` of `src/unnamed/part_000` line 280: the
invalid-credential regex, `API_KEY_INVALID` alternative included. -/
def isInvalidApiKeyError (m : String) : Bool :=
  regexAlt ["api", "key", "not", "valid"] m ||
  regexAlt ["invalid", "api", "key"] m ||
  regexAlt ["api", "key", "invalid"] m ||
  regexAlt ["permission", "denied"] m ||
  regexAlt ["api_key_invalid"] m

/-- `isInvalidApiKeyError` of `src/unnamed/part_000` line 903 (the
credential-dialog variant): same regex without `API_KEY_INVALID`. -/
def isInvalidApiKeyErrorDialog (m : String) : Bool :=
  regexAlt ["api", "key", "not", "valid"] m ||
  regexAlt ["invalid", "api", "key"] m ||
  regexAlt ["api", "key", "invalid"] m ||
  regexAlt ["permission", "denied"] m

/-- `isBillingError` of `src/unnamed/part_000` line 281: `/billing/i`. -/
def isBillingError (m : String) : Bool :=
  regexAlt ["billing"] m

/-- The user-facing failure categories produced by the catch block of
`src/unnamed/part_000` lines 285-291. -/
inductive ErrorCategory where
  | invalidCredential
  | billing
  | unknown
deriving DecidableEq, Repr

/-- Classification order of `src/unnamed/part_000` lines 285-291: the
invalid-credential regex is tested first, then the billing regex,
anything else is the generic category. -/
def classify (m : String) : ErrorCategory :=
  if isInvalidApiKeyError m then ErrorCategory.invalidCredential
  else if isBillingError m then ErrorCategory.billing
  else ErrorCategory.unknown

/-- Whether a raw error forces re-entry of the credential: the variant of
`src/unnamed/part_000` lines 899-919 calls `handleClearApiKey()` (which
removes the cached key and reopens the key dialog) exactly when its
invalid-key regex matches. -/
def mustReauthenticate (m : String) : Bool :=
  isInvalidApiKeyErrorDialog m

/-! ### Prompt assembly (`src/services/geminiService.ts`, third snapshot,
lines 156-193) -/

/-- `instructionWithContext` of `src/services/geminiService.ts` lines
176-178: a non-empty context (JavaScript truthiness of a string) is
wrapped in the delimited context block and appended to the configured
system instruction; an empty context leaves the instruction unmodified. -/
def instructionWithContext (systemInstruction context : String) : String :=
  if context = "" then systemInstruction
  else
    systemInstruction ++
    "\n\nUsa le seguenti informazioni per rispondere alla domanda dell\x27utente. Queste informazioni sono i frammenti più rilevanti estratti da una base di conoscenza più ampia:\n\n--- INIZIO CONTESTO RILEVANTE ---\n" ++
    context ++ "\n--- FINE CONTESTO RILEVANTE ---"

/-- The generation request assembled by `runChatStream`
(`src/services/geminiService.ts` lines 182-189). -/
structure GenRequest where
  model : String
  contents : String
  systemInstruction : String
  temperature : ℚ
deriving DecidableEq, Repr

/-- The request `runChatStream` submits to
`ai.models.generateContentStream`: model and temperature pass through
from the settings, the contents are the raw prompt, and the system
instruction is `instructionWithContext`. -/
def runChatStreamRequest (settings : Settings) (prompt context : String) :
    GenRequest :=
  { model := settings.model
    contents := prompt
    systemInstruction :=
      instructionWithContext settings.systemInstruction context
    temperature := settings.temperature }

/-! ### Session budget (`src/components/SettingsPanel.tsx`) -/

/-- Accumulated session consumption: each completed turn executes
`setTotalTokensUsed(prev => prev + tokenCount)` (`src/App.tsx`
lines 202 and 609). -/
def consumedTotal (usages : List ℕ) : ℕ :=
  usages.foldl (· + ·) 0

/-- `remainingTokens` of `src/components/SettingsPanel.tsx` line 52:
`Math.max(0, totalTokenLimit - sessionTokensUsed)`. -/
def remainingTokens (totalTokenLimit sessionTokensUsed : ℤ) : ℤ :=
  max 0 (totalTokenLimit - sessionTokensUsed)

/-- `isOverLimit` of `src/components/SettingsPanel.tsx` line 54. -/
def isOverLimit (totalTokenLimit sessionTokensUsed : ℤ) : Bool :=
  totalTokenLimit ≤ sessionTokensUsed

/-! ### Stream orchestration (`src/App.tsx`)

`handleSendMessage` is an async handler; its suspension points are the
opening of the stream and each `await` of the next chunk.  The embedding
runs the whole turn as a function of the environment: the list of chunks
the provider would deliver, how the stream terminates after them
(`StreamOutcome`), and the cooperative stop request.  `cancelAt = some n`
means the stop button is pressed after `n` chunk deltas have been
appended, so the `stopStreamingRef` check that follows the arrival of
chunk `n` (and every later check) reads `true`; `none` means the stop
button is never pressed during the turn. -/

/-- Number of chunk deltas appended by the `for await` loop: all of them,
unless the stop flag is observed first. -/
def processedCount (chunks : List StreamChunk) (cancelAt : Option ℕ) : ℕ :=
  match cancelAt with
  | some n => min n chunks.length
  | none => chunks.length

/-- The accumulated `fullText` of the loop (`fullText += chunkText`). -/
def streamedText (chunks : List StreamChunk) (cancelAt : Option ℕ) : String :=
  String.join ((chunks.take (processedCount chunks cancelAt)).map
    StreamChunk.text)

/-- Whether the loop exits through the `break` at the flag check: this
requires a further chunk to arrive after the stop request. -/
def willBreak (chunks : List StreamChunk) (cancelAt : Option ℕ) : Bool :=
  match cancelAt with
  | some n => decide (n < chunks.length)
  | none => false

/-- Whether the stop flag is set by the time the post-loop
`if (!stopStreamingRef.current …)` check runs. -/
def cancelObserved (chunks : List StreamChunk) (cancelAt : Option ℕ) :
    Bool :=
  match cancelAt with
  | some n => decide (n ≤ chunks.length)
  | none => false

/-- The `lastChunk` variable after the loop: the last chunk whose body
ran to the `lastChunk = chunk` assignment (the `break` fires before the
assignment). -/
def lastReceivedChunk (chunks : List StreamChunk) (cancelAt : Option ℕ) :
    Option StreamChunk :=
  (chunks.take (processedCount chunks cancelAt)).getLast?

/-- The `setMessages` update that rewrites the text of the last message
when it is a model message (`src/App.tsx` lines 183-187, 209-215,
600-604 and 623-629 all mutate `newMessages[newMessages.length - 1]`;
the error paths additionally guard on the last role being `model`). -/
def setLastText (msgs : List Message) (t : String) : List Message :=
  match msgs.getLast? with
  | some lastMsg =>
      if lastMsg.role = Role.model then
        msgs.dropLast ++ [{ lastMsg with text := t }]
      else msgs
  | none => msgs

/-- The `setMessages` update of `src/App.tsx` lines 197-201 that writes
the extracted sources onto the last (model) message. -/
def setLastSources (msgs : List Message) (srcs : List Source) :
    List Message :=
  match msgs.getLast? with
  | some lastMsg => msgs.dropLast ++ [{ lastMsg with sources := some srcs }]
  | none => msgs

namespace AppV1

/-- Modelled from the spec: `processFinalResponse` is imported by the
first snapshot of `src/App.tsx` from the generation service, but its
definition is not present under `src/`.  Per §4.4, on completion the
"final metadata (citation sources, consumed-token count) is extracted
from the last chunk". -/
def processFinalResponse (c : StreamChunk) : List Source × ℕ :=
  (c.groundingSources, c.usageTokenCount.getD 0)

/-- `handleSendMessage` of `src/App.tsx` lines 162-221 (first snapshot):
guard on a blank input; append the user message and an empty model
message; stream deltas into the model message, breaking when the stop
flag is observed; on undisturbed completion commit sources and token
count from the last chunk; on a thrown error overwrite the model message
with the error text; always reset `isLoading` and the stop flag. -/
def handleSendMessage (newMessage : String) (chunks : List StreamChunk)
    (outcome : StreamOutcome) (cancelAt : Option ℕ) (s : AppState) :
    TurnResult :=
  if jsTrim newMessage = "" then ⟨s, false⟩
  else
    let started : AppState :=
      { s with
          messages := s.messages ++
            [{ role := Role.user, text := newMessage },
             { role := Role.model, text := "" }]
          isLoading := true
          error := none
          stopStreaming := false }
    let streamed : AppState :=
      { started with
          messages :=
            setLastText started.messages (streamedText chunks cancelAt) }
    let finish : TurnResult :=
      let finalized : AppState :=
        if cancelObserved chunks cancelAt then streamed
        else
          match lastReceivedChunk chunks cancelAt with
          | some c =>
              { streamed with
                  messages :=
                    setLastSources streamed.messages
                      (processFinalResponse c).1
                  totalTokensUsed :=
                    streamed.totalTokensUsed + (processFinalResponse c).2 }
          | none => streamed
      ⟨{ finalized with isLoading := false, stopStreaming := false }, true⟩
    match outcome with
    | StreamOutcome.completes => finish
    | StreamOutcome.fails em =>
        if willBreak chunks cancelAt then finish
        else
          ⟨{ streamed with
               messages := setLastText streamed.messages em
               error := some em
               isLoading := false
               stopStreaming := false }, true⟩

end AppV1

namespace AppV2

/-- `API_KEY_INSTRUCTIONS` of `src/App.tsx` lines 373-384. -/
def API_KEY_INSTRUCTIONS : String :=
  "Errore di Configurazione: Chiave API Mancante\n\nL\x27assistente AI non può funzionare senza una chiave API valida.\n\nSe sei l\x27amministratore di questo sito, segui questi passaggi:\n1. Vai al pannello di controllo del tuo servizio di hosting (es. Netlify).\n2. Trova le impostazioni per le \"Environment Variables\" (Variabili d\x27ambiente).\n3. Crea una nuova variabile chiamata \x60API_KEY\x60.\n4. Incolla la tua chiave API di Google Gemini come valore.\n5. Salva e riesegui il deploy del sito.\n\nLa chat è disabilitata finché la configurazione non è completata."

/-- The local refusal of `src/App.tsx` line 578, synthesized without
calling the generation endpoint when the knowledge base is blank. -/
def emptyKnowledgeBaseReply : String :=
  "E\x27 necessario fornire i pdf per la base di conoscenza"

/-- The catch block of `src/App.tsx` lines 612-620: an error mentioning
the missing-key sentinel maps to the configuration instructions,
anything else to the fixed generic explanation. -/
def displayError (originalErrorMessage : String) : String :=
  if jsIncludes "API key is not configured" originalErrorMessage then
    API_KEY_INSTRUCTIONS
  else "Si è verificato un errore inatteso. Riprova."

/-- `handleSendMessage` of `src/App.tsx` lines 569-635 (second
snapshot): as `AppV1.handleSendMessage`, but with the empty-knowledge
guard that refuses locally before any generation call, and committing
only the token count (no sources) from the last chunk. -/
def handleSendMessage (newMessage knowledgeBase : String)
    (chunks : List StreamChunk) (outcome : StreamOutcome)
    (cancelAt : Option ℕ) (s : AppState) : TurnResult :=
  if jsTrim newMessage = "" then ⟨s, false⟩
  else if jsTrim knowledgeBase = "" then
    ⟨{ s with
         messages := s.messages ++
           [{ role := Role.user, text := newMessage },
            { role := Role.model, text := emptyKnowledgeBaseReply }] },
     false⟩
  else
    let started : AppState :=
      { s with
          messages := s.messages ++
            [{ role := Role.user, text := newMessage },
             { role := Role.model, text := "" }]
          isLoading := true
          error := none
          stopStreaming := false }
    let streamed : AppState :=
      { started with
          messages :=
            setLastText started.messages (streamedText chunks cancelAt) }
    let finish : TurnResult :=
      let finalized : AppState :=
        if cancelObserved chunks cancelAt then streamed
        else
          match lastReceivedChunk chunks cancelAt with
          | some c =>
              { streamed with
                  totalTokensUsed :=
                    streamed.totalTokensUsed + c.usageTokenCount.getD 0 }
          | none => streamed
      ⟨{ finalized with isLoading := false, stopStreaming := false }, true⟩
    match outcome with
    | StreamOutcome.completes => finish
    | StreamOutcome.fails em =>
        if willBreak chunks cancelAt then finish
        else
          ⟨{ streamed with
               messages := setLastText streamed.messages (displayError em)
               error := some (displayError em)
               isLoading := false
               stopStreaming := false }, true⟩

end AppV2

/-! ### Relevance ranking

The Chunker/Relevance Ranker of spec §4.1-§4.2 has no implementation
under `src/` (the snapshots send the whole knowledge base; only the
RAG-oriented `SettingsPanel` snapshot refers to chunks).  The ranker is
therefore modelled from the spec. -/

namespace Ranker

/-- Modelled from the spec: the `Chunk` record of §3,
`{ index: integer, text: string }`. -/
structure Chunk where
  index : ℕ
  text : String
deriving DecidableEq, Repr

/-- An alphanumeric character, the word-token alphabet of §4.2 step 1. -/
def isWordChar (c : Char) : Bool :=
  c.isAlpha || c.isDigit

/-- Accumulate maximal alphanumeric runs. -/
def tokensAux : List Char → List Char → List String
  | [], acc => if acc.isEmpty then [] else [String.mk acc.reverse]
  | c :: rest, acc =>
      if isWordChar c then tokensAux rest (c :: acc)
      else if acc.isEmpty then tokensAux rest []
      else String.mk acc.reverse :: tokensAux rest []

/-- Modelled from the spec: §4.2 step 1 — the set of lower-cased
alphanumeric word tokens of a string (duplicates removed). -/
def tokenize (s : String) : List String :=
  (tokensAux (s.data.map Char.toLower) []).dedup

/-- Modelled from the spec: §4.2 step 2 — a chunk's score is the number
of distinct query tokens present in the chunk's token set (each query
token contributes at most 1). -/
def score (queryTokens : List String) (c : Chunk) : ℕ :=
  (queryTokens.filter (fun t => decide (t ∈ tokenize c.text))).length

/-- Modelled from the spec: §4.2 steps 1-4 — empty query token set gives
no context; otherwise score every chunk, sort descending by score
(stable), keep the first `topK`, drop zero scores, and re-sort the
retained subset ascending by original index. -/
def rankSelect (query : String) (chunks : List Chunk) (topK : ℕ) :
    List Chunk :=
  let qts := tokenize query
  if qts.isEmpty then []
  else
    let scored := chunks.map (fun c => (c, score qts c))
    let sortedDesc := scored.insertionSort (fun a b => b.2 ≤ a.2)
    let retained := (sortedDesc.take topK).filter (fun p => p.2 != 0)
    (retained.map Prod.fst).insertionSort (fun a b => a.index ≤ b.index)

/-- Modelled from the spec: the `rank` contract of §4.2 — the retained
chunks joined by the visible corpus separator, in document order. -/
def rank (query : String) (chunks : List Chunk) (topK : ℕ) : String :=
  String.intercalate "\n\n---\n\n"
    ((rankSelect query chunks topK).map Chunk.text)

end Ranker

/-! ### Helper lemmas -/

/-- Rewriting the text of the last message of `l ++ [a, b]` when `b` is a
model message. -/
theorem setLastText_snoc2 (l : List Message) (a b : Message) (t : String)
    (h : b.role = Role.model) :
    setLastText (l ++ [a, b]) t = l ++ [a, { b with text := t }] := by
  have e : l ++ [a, b] = (l ++ [a]) ++ [b] := by simp
  rw [e]
  unfold setLastText
  rw [List.getLast?_concat, List.dropLast_concat]
  simp [h]

/-- Writing the sources of the last message of `l ++ [a, b]`. -/
theorem setLastSources_snoc2 (l : List Message) (a b : Message)
    (srcs : List Source) :
    setLastSources (l ++ [a, b]) srcs =
      l ++ [a, { b with sources := some srcs }] := by
  have e : l ++ [a, b] = (l ++ [a]) ++ [b] := by simp
  rw [e]
  unfold setLastSources
  rw [List.getLast?_concat, List.dropLast_concat]
  simp

theorem processedCount_cancel_le {chunks : List StreamChunk} {n : ℕ}
    (h : n ≤ chunks.length) : processedCount chunks (some n) = n := by
  simp [processedCount, Nat.min_eq_left h]

theorem cancelObserved_of_le {chunks : List StreamChunk} {n : ℕ}
    (h : n ≤ chunks.length) : cancelObserved chunks (some n) = true := by
  simp [cancelObserved, h]

theorem willBreak_of_lt {chunks : List StreamChunk} {n : ℕ}
    (h : n < chunks.length) : willBreak chunks (some n) = true := by
  simp [willBreak, h]

/-! ### Claims -/

/-- C6: a raw error message matching both an invalid-key pattern and the
billing pattern is classified as an invalid credential, not as a billing
problem, because the invalid-credential regex is tested first
(`src/unnamed/part_000` lines 280-291). -/
theorem classify_invalid_key_precedes_billing (m : String)
    (hinv : isInvalidApiKeyError m = true)
    (hbill : isBillingError m = true) :
    classify m = ErrorCategory.invalidCredential := by
  simp [classify, hinv]

/-- Witness for `classify_invalid_key_precedes_billing`: the message
"API key not valid: billing disabled" matches both patterns and is
classified as an invalid credential. -/
theorem classify_invalid_key_precedes_billing_witness :
    isInvalidApiKeyError "API key not valid: billing disabled" = true ∧
    isBillingError "API key not valid: billing disabled" = true ∧
    classify "API key not valid: billing disabled" =
      ErrorCategory.invalidCredential :=
  ⟨by decide, by decide,
   classify_invalid_key_precedes_billing _ (by decide) (by decide)⟩

/-- C5 (counterexample): the raw error text "Requested entity was not
found" matches none of the invalid-credential patterns of
`src/unnamed/part_000` (lines 280 and 903), so it is not classified
`InvalidCredential` and does not force re-authentication. -/
theorem requested_entity_not_invalid_credential :
    ¬ (classify "Requested entity was not found" =
         ErrorCategory.invalidCredential ∧
       mustReauthenticate "Requested entity was not found" = true) := by
  decide

/-- C5 (amended): classifying the raw error text "Requested entity was
not found" yields the generic unknown-error category with
`mustReauthenticate = false`: no cached credential is invalidated. -/
theorem requested_entity_classifies_unknown :
    classify "Requested entity was not found" = ErrorCategory.unknown ∧
    mustReauthenticate "Requested entity was not found" = false := by
  decide

/-- C7: the system instruction of the assembled generation request is the
configured instruction followed by the delimited context block when the
context is non-empty, and exactly the configured instruction when the
context is empty (`src/services/geminiService.ts` lines 176-189). -/
theorem runChatStream_systemInstruction (settings : Settings)
    (prompt context : String) :
    (context ≠ "" →
      (runChatStreamRequest settings prompt context).systemInstruction =
        settings.systemInstruction ++
        "\n\nUsa le seguenti informazioni per rispondere alla domanda dell\x27utente. Queste informazioni sono i frammenti più rilevanti estratti da una base di conoscenza più ampia:\n\n--- INIZIO CONTESTO RILEVANTE ---\n" ++
        context ++ "\n--- FINE CONTESTO RILEVANTE ---") ∧
    (context = "" →
      (runChatStreamRequest settings prompt context).systemInstruction =
        settings.systemInstruction) := by
  constructor
  · intro h
    simp [runChatStreamRequest, instructionWithContext, h]
  · intro h
    simp [runChatStreamRequest, instructionWithContext, h]

/-- Witness for `runChatStream_systemInstruction` at a concrete non-empty
and a concrete empty context. -/
theorem runChatStream_systemInstruction_witness :
    (runChatStreamRequest ⟨"gemini-2.5-flash", 1/2, "SYS"⟩ "Q" "CTX").systemInstruction =
      "SYS" ++
      "\n\nUsa le seguenti informazioni per rispondere alla domanda dell\x27utente. Queste informazioni sono i frammenti più rilevanti estratti da una base di conoscenza più ampia:\n\n--- INIZIO CONTESTO RILEVANTE ---\n" ++
      "CTX" ++ "\n--- FINE CONTESTO RILEVANTE ---" ∧
    (runChatStreamRequest ⟨"gemini-2.5-flash", 1/2, "SYS"⟩ "Q" "").systemInstruction =
      "SYS" :=
  ⟨(runChatStream_systemInstruction ⟨"gemini-2.5-flash", 1/2, "SYS"⟩ "Q" "CTX").1
     (by decide),
   (runChatStream_systemInstruction ⟨"gemini-2.5-flash", 1/2, "SYS"⟩ "Q" "").2 rfl⟩

/-- C8: for every total limit and every sequence of recorded usages, the
remaining budget of `src/components/SettingsPanel.tsx` line 52 is
non-negative and equals `max 0 (totalLimit - consumed)`, even when the
consumption exceeds the limit. -/
theorem remainingTokens_nonneg (totalTokenLimit : ℤ) (usages : List ℕ) :
    0 ≤ remainingTokens totalTokenLimit (consumedTotal usages : ℤ) ∧
    remainingTokens totalTokenLimit (consumedTotal usages : ℤ) =
      max 0 (totalTokenLimit - (consumedTotal usages : ℤ)) :=
  ⟨le_max_left _ _, rfl⟩

/-- C10: sending a blank (empty or whitespace-only) input is a no-op in
both orchestrator snapshots: the full component state is returned
unchanged and no generation call is made (`src/App.tsx` lines 163 and
570, `src/unnamed/part_000` line 227). -/
theorem blank_message_noop (newMessage knowledgeBase : String)
    (chunks : List StreamChunk) (outcome : StreamOutcome)
    (cancelAt : Option ℕ) (s : AppState)
    (h : jsTrim newMessage = "") :
    AppV1.handleSendMessage newMessage chunks outcome cancelAt s =
      ⟨s, false⟩ ∧
    AppV2.handleSendMessage newMessage knowledgeBase chunks outcome
      cancelAt s = ⟨s, false⟩ := by
  constructor
  · simp [AppV1.handleSendMessage, h]
  · simp [AppV2.handleSendMessage, h]

/-- Witness for `blank_message_noop`: a whitespace-only input leaves a
concrete state untouched in both snapshots. -/
theorem blank_message_noop_witness :
    jsTrim " \n " = "" ∧
    AppV1.handleSendMessage " \n " [] StreamOutcome.completes none
      ⟨[], false, none, 0, false⟩ = ⟨⟨[], false, none, 0, false⟩, false⟩ ∧
    AppV2.handleSendMessage " \n " "kb" [] StreamOutcome.completes none
      ⟨[], false, none, 0, false⟩ = ⟨⟨[], false, none, 0, false⟩, false⟩ :=
  ⟨by decide,
   (blank_message_noop " \n " "kb" [] StreamOutcome.completes none
      ⟨[], false, none, 0, false⟩ (by decide)).1,
   (blank_message_noop " \n " "kb" [] StreamOutcome.completes none
      ⟨[], false, none, 0, false⟩ (by decide)).2⟩

/-- C1: when the knowledge corpus is blank (empty or whitespace-only),
sending a non-blank query appends the user message and the fixed local
refusal, makes no generation call, and leaves the token total, loading
flag and error state untouched (`src/App.tsx` lines 569-581). -/
theorem empty_corpus_local_refusal (newMessage knowledgeBase : String)
    (chunks : List StreamChunk) (outcome : StreamOutcome)
    (cancelAt : Option ℕ) (s : AppState)
    (hmsg : jsTrim newMessage ≠ "")
    (hkb : jsTrim knowledgeBase = "") :
    AppV2.handleSendMessage newMessage knowledgeBase chunks outcome
      cancelAt s =
      ⟨{ s with
           messages := s.messages ++
             [{ role := Role.user, text := newMessage },
              { role := Role.model, text := AppV2.emptyKnowledgeBaseReply }] },
       false⟩ := by
  simp [AppV2.handleSendMessage, hmsg, hkb]

/-- Witness for `empty_corpus_local_refusal`: a concrete query against a
whitespace-only corpus. -/
theorem empty_corpus_local_refusal_witness :
    jsTrim "ciao" ≠ "" ∧ jsTrim " " = "" ∧
    AppV2.handleSendMessage "ciao" " " [] StreamOutcome.completes none
      ⟨[], false, none, 7, false⟩ =
      ⟨⟨[{ role := Role.user, text := "ciao" },
         { role := Role.model, text := AppV2.emptyKnowledgeBaseReply }],
        false, none, 7, false⟩, false⟩ :=
  ⟨by decide, by decide,
   empty_corpus_local_refusal "ciao" " " [] StreamOutcome.completes none
     ⟨[], false, none, 7, false⟩ (by decide) (by decide)⟩

/-- C3: a turn that fails mid-stream (the next `await` throws after the
listed chunks, with no stop request) overwrites the trailing model
message with the category-specific explanation, discarding any partial
streamed text, and that explanation is never blank
(`src/App.tsx` lines 612-630). -/
theorem midstream_failure_overwrites_with_error
    (newMessage knowledgeBase : String) (chunks : List StreamChunk)
    (em : String) (s : AppState)
    (hmsg : jsTrim newMessage ≠ "") (hkb : jsTrim knowledgeBase ≠ "") :
    (AppV2.handleSendMessage newMessage knowledgeBase chunks
        (StreamOutcome.fails em) none s).state.messages =
      s.messages ++
        [{ role := Role.user, text := newMessage },
         { role := Role.model, text := AppV2.displayError em }] ∧
    AppV2.displayError em ≠ "" := by
  constructor
  · simp [AppV2.handleSendMessage, hmsg, hkb, willBreak, setLastText_snoc2]
  · unfold AppV2.displayError
    split
    · decide
    · decide

/-- Witness for `midstream_failure_overwrites_with_error`: a concrete
turn whose stream delivers one chunk and then throws. -/
theorem midstream_failure_overwrites_with_error_witness :
    (AppV2.handleSendMessage "q" "kb" [{ text := "par" }]
        (StreamOutcome.fails "boom") none
        ⟨[], false, none, 3, false⟩).state.messages =
      [{ role := Role.user, text := "q" },
       { role := Role.model, text := AppV2.displayError "boom" }] ∧
    AppV2.displayError "boom" ≠ "" :=
  midstream_failure_overwrites_with_error "q" "kb" [{ text := "par" }]
    "boom" ⟨[], false, none, 3, false⟩ (by decide) (by decide)

/-- C4: every generation turn — completed, cancelled or failed — resets
the `isLoading` busy flag and the stop-streaming flag before resolving,
in both orchestrator snapshots (`src/App.tsx` lines 217-220 and
631-634). -/
theorem turn_always_resets_busy_flags
    (newMessage knowledgeBase : String) (chunks : List StreamChunk)
    (outcome : StreamOutcome) (cancelAt : Option ℕ) (s : AppState)
    (hmsg : jsTrim newMessage ≠ "") (hkb : jsTrim knowledgeBase ≠ "") :
    ((AppV1.handleSendMessage newMessage chunks outcome cancelAt
        s).state.isLoading = false ∧
     (AppV1.handleSendMessage newMessage chunks outcome cancelAt
        s).state.stopStreaming = false) ∧
    ((AppV2.handleSendMessage newMessage knowledgeBase chunks outcome
        cancelAt s).state.isLoading = false ∧
     (AppV2.handleSendMessage newMessage knowledgeBase chunks outcome
        cancelAt s).state.stopStreaming = false) := by
  cases outcome <;>
    refine ⟨⟨?_, ?_⟩, ⟨?_, ?_⟩⟩ <;>
      simp only [AppV1.handleSendMessage, AppV2.handleSendMessage,
        if_neg hmsg, if_neg hkb] <;>
      split <;> simp

/-- Witness for `turn_always_resets_busy_flags`: a concrete failing turn
leaves neither busy flag set. -/
theorem turn_always_resets_busy_flags_witness :
    ((AppV1.handleSendMessage "q" [] (StreamOutcome.fails "x") none
        ⟨[], true, none, 0, true⟩).state.isLoading = false ∧
     (AppV1.handleSendMessage "q" [] (StreamOutcome.fails "x") none
        ⟨[], true, none, 0, true⟩).state.stopStreaming = false) ∧
    ((AppV2.handleSendMessage "q" "kb" [] (StreamOutcome.fails "x") none
        ⟨[], true, none, 0, true⟩).state.isLoading = false ∧
     (AppV2.handleSendMessage "q" "kb" [] (StreamOutcome.fails "x") none
        ⟨[], true, none, 0, true⟩).state.stopStreaming = false) :=
  turn_always_resets_busy_flags "q" "kb" [] (StreamOutcome.fails "x") none
    ⟨[], true, none, 0, true⟩ (by decide) (by decide)

/-- C2: when the stop flag is set after `n` chunk deltas have been
appended (and the stream has not already thrown before another chunk or
its normal end is observed), the final model message text is exactly the
concatenation of those `n` chunk texts, its `sources` field is left
unset, and the session token total is unchanged
(`src/App.tsx` lines 176-204). -/
theorem cancelled_stream_preserves_prefix (s : AppState)
    (newMessage : String) (chunks : List StreamChunk)
    (outcome : StreamOutcome) (n : ℕ)
    (hmsg : jsTrim newMessage ≠ "")
    (hn : n ≤ chunks.length)
    (hobs : n < chunks.length ∨ outcome = StreamOutcome.completes) :
    (AppV1.handleSendMessage newMessage chunks outcome (some n)
        s).state.messages =
      s.messages ++
        [{ role := Role.user, text := newMessage },
         { role := Role.model,
           text := String.join ((chunks.take n).map StreamChunk.text),
           sources := none }] ∧
    (AppV1.handleSendMessage newMessage chunks outcome (some n)
        s).state.totalTokensUsed = s.totalTokensUsed := by
  cases outcome with
  | completes =>
      constructor <;>
        simp [AppV1.handleSendMessage, hmsg, cancelObserved_of_le hn,
          streamedText, processedCount_cancel_le hn, setLastText_snoc2]
  | fails em =>
      have hlt : n < chunks.length := by
        rcases hobs with h | h
        · exact h
        · cases h
      constructor <;>
        simp [AppV1.handleSendMessage, hmsg, willBreak_of_lt hlt,
          cancelObserved_of_le hn, streamedText,
          processedCount_cancel_le hn, setLastText_snoc2]

/-- Witness for `cancelled_stream_preserves_prefix`: the end-to-end
cancellation scenario — chunks of 5 and 7 characters, stop requested
after both, final text of exactly those 12 characters, no sources, no
token charge. -/
theorem cancelled_stream_preserves_prefix_witness :
    (AppV1.handleSendMessage "q"
        [{ text := "Hello", usageTokenCount := some 99,
           groundingSources := [⟨"u", "t"⟩] },
         { text := " world!" }]
        StreamOutcome.completes (some 2)
        ⟨[], false, none, 5, false⟩).state.messages =
      [{ role := Role.user, text := "q" },
       { role := Role.model, text := "Hello world!", sources := none }] ∧
    (AppV1.handleSendMessage "q"
        [{ text := "Hello", usageTokenCount := some 99,
           groundingSources := [⟨"u", "t"⟩] },
         { text := " world!" }]
        StreamOutcome.completes (some 2)
        ⟨[], false, none, 5, false⟩).state.totalTokensUsed = 5 := by
  have h := cancelled_stream_preserves_prefix ⟨[], false, none, 5, false⟩
    "q"
    [{ text := "Hello", usageTokenCount := some 99,
       groundingSources := [⟨"u", "t"⟩] },
     { text := " world!" }]
    StreamOutcome.completes 2 (by decide) (by decide) (Or.inr rfl)
  simpa using h

/-- Every chunk list produced by `Ranker.rankSelect` is drawn (without
duplication) from the input chunk list. -/
theorem rankSelect_subperm (query : String) (chunks : List Ranker.Chunk)
    (topK : ℕ) :
    (Ranker.rankSelect query chunks topK).Subperm chunks := by
  unfold Ranker.rankSelect
  by_cases hq : (Ranker.tokenize query).isEmpty = true
  · simp [hq]
  · simp only [hq, if_false, Bool.false_eq_true]
    set scored := chunks.map
      (fun c => (c, Ranker.score (Ranker.tokenize query) c)) with hscored
    have hmapfst : scored.map Prod.fst = chunks := by
      rw [hscored, List.map_map]
      show List.map id chunks = chunks
      exact List.map_id chunks
    set sortedDesc :=
      scored.insertionSort (fun a b => b.2 ≤ a.2) with hsorted
    set retained :=
      (sortedDesc.take topK).filter (fun p => p.2 != 0) with hretained
    have hsub : retained.Sublist sortedDesc :=
      (List.filter_sublist _).trans (List.take_sublist _ _)
    have hperm : sortedDesc.Perm scored := List.perm_insertionSort _ _
    have hfinal :
        ((retained.map Prod.fst).insertionSort
          (fun a b => a.index ≤ b.index)).Perm (retained.map Prod.fst) :=
      List.perm_insertionSort _ _
    refine hfinal.subperm.trans ?_
    rcases (hsub.subperm.trans hperm.subperm) with ⟨l, hl1, hl2⟩
    exact ⟨l.map Prod.fst, hl1.map Prod.fst,
      hmapfst ▸ hl2.map Prod.fst⟩

/-- C9: when the input chunk indices are strictly increasing, the chunks
retained by the ranker appear in the output in strictly ascending
original-index (document) order, regardless of their score order
(spec §4.2 step 4). -/
theorem rankSelect_preserves_document_order (query : String)
    (chunks : List Ranker.Chunk) (topK : ℕ)
    (h : (chunks.map Ranker.Chunk.index).Pairwise (· < ·)) :
    ((Ranker.rankSelect query chunks topK).map
      Ranker.Chunk.index).Pairwise (· < ·) := by
  have hnodupIn : (chunks.map Ranker.Chunk.index).Nodup :=
    h.imp Nat.ne_of_lt
  have hnodup :
      ((Ranker.rankSelect query chunks topK).map
        Ranker.Chunk.index).Nodup := by
    rcases rankSelect_subperm query chunks topK with ⟨l, hl1, hl2⟩
    have := ((hl2.map Ranker.Chunk.index).nodup hnodupIn)
    exact ((hl1.map Ranker.Chunk.index).nodup_iff).mp this
  have hsorted :
      (Ranker.rankSelect query chunks topK).Pairwise
        (fun a b => a.index ≤ b.index) := by
    unfold Ranker.rankSelect
    by_cases hq : (Ranker.tokenize query).isEmpty = true
    · simp [hq]
    · simp only [hq, if_false, Bool.false_eq_true]
      haveI : IsTotal Ranker.Chunk (fun a b => a.index ≤ b.index) :=
        ⟨fun a b => Nat.le_total a.index b.index⟩
      haveI : IsTrans Ranker.Chunk (fun a b => a.index ≤ b.index) :=
        ⟨fun _ _ _ hab hbc => le_trans hab hbc⟩
      exact List.sorted_insertionSort _ _
  have hne :
      (Ranker.rankSelect query chunks topK).Pairwise
        (fun a b => a.index ≠ b.index) :=
    List.pairwise_map.mp hnodup
  refine List.pairwise_map.mpr ((hsorted.and hne).imp ?_)
  rintro a b ⟨hle, hneq⟩
  exact lt_of_le_of_ne hle hneq

/-- Witness for `rankSelect_preserves_document_order`: a query whose
score order differs from document order still yields ascending indices. -/
theorem rankSelect_preserves_document_order_witness :
    (([⟨0, "alpha beta"⟩, ⟨1, "gamma"⟩, ⟨2, "beta delta epsilon"⟩] :
        List Ranker.Chunk).map Ranker.Chunk.index).Pairwise (· < ·) ∧
    ((Ranker.rankSelect "beta delta zeta"
        [⟨0, "alpha beta"⟩, ⟨1, "gamma"⟩, ⟨2, "beta delta epsilon"⟩]
        5).map Ranker.Chunk.index).Pairwise (· < ·) :=
  ⟨by decide,
   rankSelect_preserves_document_order "beta delta zeta"
     [⟨0, "alpha beta"⟩, ⟨1, "gamma"⟩, ⟨2, "beta delta epsilon"⟩] 5
     (by decide)⟩
